import Mathlib

/-!
Shallow embedding of the maintenance logic of `LTool.py` (classes
`SystemManager` and `MaintenanceOperations`).  External process execution is
modelled by an environment function: each spawned command's observable
behaviour (timeout, exit code with captured streams, or a launch error such
as a missing executable) is an input to the embedded functions, and the
embedded functions reproduce exactly what the Python code computes from it.
Wall-clock timestamps (`datetime.now()`) are not modelled: no claim touches
them, and they carry no information computed by the program.  Python float
division in the progress formula is modelled exactly over `ℚ`.
-/

/-- One `(command, description)` pair from the operation tables
(`operations` lists in `MaintenanceOperations`). -/
structure OperationStep where
  command : List String
  description : String
deriving Repr, DecidableEq

/-- The dict appended to `self.operations_log` in `_execute_operations`
(the `timestamp` field, taken from the wall clock, is not modelled). -/
structure LogEntry where
  command : String
  description : String
  success : Bool
  output : String
deriving Repr, DecidableEq

/-- Observable behaviour of one `subprocess.run(command, capture_output=True,
text=True, timeout=..., check=True)` call: the process timed out, exited with
a return code and captured stdout/stderr, or failed to launch at all
(e.g. `FileNotFoundError` for a missing executable). -/
inductive SpawnOutcome where
  | timedOut
  | exited (returncode : Nat) (stdout stderr : String)
  | launchError (msg : String)
deriving Repr, DecidableEq

/-- `SystemManager.run_command`.  With `check=True`, a non-zero exit raises
`CalledProcessError` (carrying the captured stderr), caught and turned into
`(False, "Command failed: ...")`; `TimeoutExpired` becomes
`(False, "Command timed out")`; any other exception becomes
`(False, "Error: ...")`; success returns `(True, stdout + stderr)`.
The Lean function is total: no failure escapes as an exception. -/
def run_command (outcome : SpawnOutcome) : Bool × String :=
  match outcome with
  | .timedOut => (false, "Command timed out")
  | .exited 0 stdout stderr => (true, stdout ++ stderr)
  | .exited (_ + 1) _ stderr => (false, "Command failed: " ++ stderr)
  | .launchError msg => (false, "Error: " ++ msg)

/-- Observable behaviour of the `subprocess.run(['which', command], ...)`
probe inside `SystemManager.command_exists`: either `which` ran and exited
with a return code, or spawning `which` itself failed (e.g. the `which`
binary is absent), which raises an exception that is not caught. -/
inductive ProbeResult where
  | exited (returncode : Nat)
  | spawnFailure (msg : String)
deriving Repr, DecidableEq

/-- `SystemManager.command_exists`.  Only `CalledProcessError` (non-zero
exit of the probe) is caught and turned into `False`; exit 0 gives `True`;
any other spawn failure propagates as an exception, modelled as `.error`. -/
def command_exists (env : String → ProbeResult) (command : String) :
    Except String Bool :=
  match env command with
  | .exited 0 => .ok true
  | .exited (_ + 1) => .ok false
  | .spawnFailure msg => .error msg

/-- `SystemManager.supported_distros`, the dict from `__init__`. -/
def supported_distros (distro : String) : Option (List String) :=
  if distro = "ubuntu" then some ["apt", "apt-get"]
  else if distro = "debian" then some ["apt", "apt-get"]
  else if distro = "fedora" then some ["dnf", "yum"]
  else if distro = "centos" then some ["yum", "dnf"]
  else if distro = "arch" then some ["pacman"]
  else if distro = "opensuse" then some ["zypper"]
  else none

/-- The `for pm in self.supported_distros[self.distro]` loop body of
`get_package_manager`: first package manager whose `command_exists` probe
returns `True`; falls through to `'apt'`.  An exception from
`command_exists` propagates. -/
def findFirstExisting (env : String → ProbeResult) :
    List String → Except String String
  | [] => .ok "apt"
  | pm :: rest => do
    let b ← command_exists env pm
    if b then pure pm else findFirstExisting env rest

/-- `SystemManager.get_package_manager`. -/
def get_package_manager (env : String → ProbeResult) (distro : String) :
    Except String String :=
  match supported_distros distro with
  | some pms => findFirstExisting env pms
  | none => .ok "apt"

/-- Whether the probe for a command reports it available (exit 0 of
`which`), used to state the specification-level selection function. -/
def probeOk (env : String → ProbeResult) (c : String) : Bool :=
  match env c with
  | .exited 0 => true
  | _ => false

/-- Modelled from the spec (§4.1): `select_package_manager` walks the
distro's priority list and picks the first manager whose executable is
found; defaults to `apt` if none found or the distro is unknown.  Stated
against a total availability predicate, for comparison with
`get_package_manager`. -/
def selectSpec (avail : String → Bool) (distro : String) : String :=
  match supported_distros distro with
  | some pms => (pms.find? avail).getD "apt"
  | none => "apt"

/-- The `operations` table of `MaintenanceOperations.update_system`
(selected by `self.sm.package_manager`; any other manager leaves the
list empty). -/
def update_manager_ops (pm : String) : List OperationStep :=
  if pm ∈ ["apt", "apt-get"] then
    [ ⟨["sudo", "apt", "update"], "Updating package lists..."⟩,
      ⟨["sudo", "apt", "upgrade", "-y"], "Upgrading packages..."⟩,
      ⟨["sudo", "apt", "dist-upgrade", "-y"], "Distribution upgrade..."⟩,
      ⟨["sudo", "apt", "autoremove", "-y"], "Removing unused packages..."⟩,
      ⟨["sudo", "apt", "autoclean"], "Cleaning package cache..."⟩ ]
  else if pm ∈ ["dnf", "yum"] then
    [ ⟨["sudo", "dnf", "check-update"], "Checking for updates..."⟩,
      ⟨["sudo", "dnf", "upgrade", "-y"], "Upgrading packages..."⟩,
      ⟨["sudo", "dnf", "autoremove", "-y"], "Removing unused packages..."⟩,
      ⟨["sudo", "dnf", "clean", "all"], "Cleaning package cache..."⟩ ]
  else if pm = "pacman" then
    [ ⟨["sudo", "pacman", "-Syu", "--noconfirm"], "System update..."⟩,
      ⟨["sudo", "pacman", "-Rns", "--noconfirm", "$(pacman -Qtdq)"],
        "Removing orphans..."⟩,
      ⟨["sudo", "pacman", "-Scc", "--noconfirm"], "Cleaning cache..."⟩ ]
  else []

/-- The manager-specific part of `MaintenanceOperations.fix_system`. -/
def fix_manager_ops (pm : String) : List OperationStep :=
  if pm ∈ ["apt", "apt-get"] then
    [ ⟨["sudo", "apt", "update", "--fix-missing"], "Fixing missing packages..."⟩,
      ⟨["sudo", "apt", "-f", "install"], "Fixing broken dependencies..."⟩,
      ⟨["sudo", "dpkg", "--configure", "-a"], "Configuring packages..."⟩,
      ⟨["sudo", "apt", "check"], "Checking package integrity..."⟩,
      ⟨["sudo", "apt", "autoremove", "-y"], "Removing broken packages..."⟩ ]
  else if pm ∈ ["dnf", "yum"] then
    [ ⟨["sudo", "dnf", "check"], "Checking system integrity..."⟩,
      ⟨["sudo", "dnf", "distro-sync"], "Synchronizing packages..."⟩,
      ⟨["sudo", "dnf", "autoremove", "-y"], "Removing problematic packages..."⟩ ]
  else if pm = "pacman" then
    [ ⟨["sudo", "pacman", "-Dk"], "Checking dependencies..."⟩,
      ⟨["sudo", "pacman", "-Syu", "--noconfirm"], "Synchronizing system..."⟩,
      ⟨["sudo", "pacman", "-Rns", "--noconfirm", "$(pacman -Qtdq)"],
        "Removing orphaned packages..."⟩ ]
  else []

/-- The `common_fixes` list of `MaintenanceOperations.fix_system`, extended
onto the manager-specific operations for every package manager. -/
def common_fixes : List OperationStep :=
  [ ⟨["sudo", "journalctl", "--vacuum-time=7d"], "Cleaning system logs..."⟩,
    ⟨["sudo", "systemctl", "daemon-reload"], "Reloading systemd..."⟩,
    ⟨["sudo", "ldconfig"], "Updating library cache..."⟩,
    ⟨["sudo", "updatedb"], "Updating locate database..."⟩ ]

/-- The full operation list built by `MaintenanceOperations.fix_system`:
`operations.extend(common_fixes)`. -/
def fix_ops (pm : String) : List OperationStep :=
  fix_manager_ops pm ++ common_fixes

/-- The manager-specific part of `MaintenanceOperations.auto_remove_unused`. -/
def cleanup_manager_ops (pm : String) : List OperationStep :=
  if pm ∈ ["apt", "apt-get"] then
    [ ⟨["sudo", "apt", "autoremove", "-y"], "Removing unused packages..."⟩,
      ⟨["sudo", "apt", "autoclean"], "Cleaning package cache..."⟩,
      ⟨["sudo", "apt", "clean"], "Deep cleaning cache..."⟩ ]
  else if pm ∈ ["dnf", "yum"] then
    [ ⟨["sudo", "dnf", "autoremove", "-y"], "Removing unused packages..."⟩,
      ⟨["sudo", "dnf", "clean", "all"], "Cleaning package cache..."⟩ ]
  else if pm = "pacman" then
    [ ⟨["sudo", "pacman", "-Rns", "--noconfirm", "$(pacman -Qtdq)"],
        "Removing orphaned packages..."⟩,
      ⟨["sudo", "pacman", "-Scc", "--noconfirm"], "Cleaning package cache..."⟩ ]
  else []

/-- The `cleanup_operations` list of `MaintenanceOperations.auto_remove_unused`
(the `\x7b\x7d` token is the literal brace-pair placeholder of `find -exec`). -/
def cleanup_operations : List OperationStep :=
  [ ⟨["sudo", "journalctl", "--vacuum-time=3d"], "Cleaning old logs..."⟩,
    ⟨["sudo", "find", "/tmp", "-type", "f", "-atime", "+7", "-delete"],
      "Cleaning temp files..."⟩,
    ⟨["sudo", "find", "/var/tmp", "-type", "f", "-atime", "+7", "-delete"],
      "Cleaning var temp..."⟩,
    ⟨["sudo", "find", "/var/log", "-name", "*.log", "-type", "f", "-mtime",
        "+30", "-delete"], "Cleaning old logs..."⟩,
    ⟨["sudo", "find", "/home", "-name", ".cache", "-type", "d", "-exec",
        "rm", "-rf", "\x7b\x7d", "+"], "Cleaning user caches..."⟩ ]

/-- The full operation list built by `MaintenanceOperations.auto_remove_unused`:
manager-specific cleanup followed by `operations.extend(cleanup_operations)`. -/
def auto_remove_ops (pm : String) : List OperationStep :=
  cleanup_manager_ops pm ++ cleanup_operations

/-- Mutable state threaded through the loop of
`MaintenanceOperations._execute_operations`: the instance-level
`operations_log`, the trace of progress-callback invocations (percentage
and description, in call order), and the accumulated `results` lines. -/
structure ExecState where
  operations_log : List LogEntry
  calls : List (ℚ × String)
  results : List String
deriving Repr, DecidableEq

/-- The log dict built for one step in `_execute_operations`, with the
`output[:200] + '...'` truncation for output longer than 200 characters. -/
def mkLogEntry (command : List String) (description : String)
    (success : Bool) (output : String) : LogEntry :=
  { command := String.intercalate " " command
    description := description
    success := success
    output := if output.length > 200 then output.take 200 ++ "..." else output }

/-- One iteration of the `for i, (command, description) in
enumerate(operations)` loop: invoke the progress callback (when one was
supplied) with `(i + 1) / total_ops * 100` and the description before
running the command, then run the command, append the log entry and the
one-line result. -/
def execStep (env : List String → SpawnOutcome) (total_ops : Nat)
    (hasCallback : Bool) (st : ExecState) (i : Nat) (step : OperationStep) :
    ExecState :=
  let calls :=
    if hasCallback then
      st.calls ++ [(((i : ℚ) + 1) / (total_ops : ℚ) * 100, step.description)]
    else st.calls
  let r := run_command (env step.command)
  let entry := mkLogEntry step.command step.description r.1 r.2
  { operations_log := st.operations_log ++ [entry]
    calls := calls
    results := st.results ++ [(if r.1 then "✓ " else "✗ ") ++ step.description] }

/-- The whole loop of `_execute_operations`, indexed like `enumerate`. -/
def execLoop (env : List String → SpawnOutcome) (total_ops : Nat)
    (hasCallback : Bool) : Nat → List OperationStep → ExecState → ExecState
  | _, [], st => st
  | i, step :: rest, st =>
    execLoop env total_ops hasCallback (i + 1) rest
      (execStep env total_ops hasCallback st i step)

/-- `MaintenanceOperations._execute_operations`.  `log0` is the content of
`self.operations_log` on entry; the returned pair is the final state and
the Python return value `(True, '\n'.join(results))`. -/
def execute_operations (operations : List OperationStep)
    (env : List String → SpawnOutcome) (hasCallback : Bool)
    (log0 : List LogEntry) : ExecState × (Bool × String) :=
  let total_ops := operations.length
  let st := execLoop env total_ops hasCallback 0 operations
    { operations_log := log0, calls := [], results := [] }
  (st, (true, String.intercalate "\n" st.results))

/-- `MaintenanceOperations.update_system`. -/
def update_system (pm : String) (env : List String → SpawnOutcome)
    (hasCallback : Bool) (log0 : List LogEntry) :
    ExecState × (Bool × String) :=
  execute_operations (update_manager_ops pm) env hasCallback log0

/-- `MaintenanceOperations.fix_system`. -/
def fix_system (pm : String) (env : List String → SpawnOutcome)
    (hasCallback : Bool) (log0 : List LogEntry) :
    ExecState × (Bool × String) :=
  execute_operations (fix_ops pm) env hasCallback log0

/-- `MaintenanceOperations.auto_remove_unused`. -/
def auto_remove_unused (pm : String) (env : List String → SpawnOutcome)
    (hasCallback : Bool) (log0 : List LogEntry) :
    ExecState × (Bool × String) :=
  execute_operations (auto_remove_ops pm) env hasCallback log0

/-- The log entry produced by running one step against environment `env`. -/
def stepLogEntry (env : List String → SpawnOutcome) (step : OperationStep) :
    LogEntry :=
  mkLogEntry step.command step.description (run_command (env step.command)).1
    (run_command (env step.command)).2

/-- The progress-callback invocation for the step at index `i`. -/
def stepCall (total_ops : Nat) (i : Nat) (step : OperationStep) : ℚ × String :=
  (((i : ℚ) + 1) / (total_ops : ℚ) * 100, step.description)

/-- An environment in which every `which` probe reports the command
available (exit 0). -/
def envAllOk : String → ProbeResult := fun _ => .exited 0

/-- An environment in which spawning the `which` probe itself fails,
e.g. because the `which` binary is absent from the path. -/
def envWhichMissing : String → ProbeResult :=
  fun _ => .spawnFailure "No such file or directory: which"

/-- An environment in which every spawned command succeeds with a short
combined output. -/
def envShortOutput : List String → SpawnOutcome := fun _ => .exited 0 "ok" ""

/-- An environment in which every spawned command succeeds with a 300
character stdout, exercising the 200-character log truncation. -/
def envLongOutput : List String → SpawnOutcome :=
  fun _ => .exited 0 (String.mk (List.replicate 300 'a')) ""

theorem execLoop_log_spec (env : List String → SpawnOutcome) (total_ops : Nat)
    (hasCallback : Bool) (l : List OperationStep) :
    ∀ (i : Nat) (st : ExecState),
      (execLoop env total_ops hasCallback i l st).operations_log
        = st.operations_log ++ l.map (stepLogEntry env) := by
  induction l with
  | nil => intro i st; simp [execLoop]
  | cons s rest ih =>
    intro i st
    simp [execLoop, ih, execStep, stepLogEntry]

theorem execLoop_calls_spec (env : List String → SpawnOutcome)
    (total_ops : Nat) (l : List OperationStep) :
    ∀ (i : Nat) (st : ExecState),
      (execLoop env total_ops true i l st).calls
        = st.calls ++ (l.enumFrom i).map (fun p => stepCall total_ops p.1 p.2) := by
  induction l with
  | nil => intro i st; simp [execLoop]
  | cons s rest ih =>
    intro i st
    simp [execLoop, ih, execStep, stepCall, List.enumFrom]

theorem execute_log_spec (operations : List OperationStep)
    (env : List String → SpawnOutcome) (hasCallback : Bool)
    (log0 : List LogEntry) :
    (execute_operations operations env hasCallback log0).1.operations_log
      = log0 ++ operations.map (stepLogEntry env) := by
  simp [execute_operations, execLoop_log_spec]

theorem execute_calls_spec (operations : List OperationStep)
    (env : List String → SpawnOutcome) (log0 : List LogEntry) :
    (execute_operations operations env true log0).1.calls
      = operations.enum.map (fun p => stepCall operations.length p.1 p.2) := by
  simp [execute_operations, List.enum, execLoop_calls_spec]

/-- C1: for every list of operation steps and every environment (hence any
mix of per-step successes and failures), `_execute_operations` returns
`overall_success = true` together with the joined per-step summary; since
the equality holds for all environments, the aggregate success flag never
depends on the outcomes of the individual steps. -/
theorem execute_overall_success_always (operations : List OperationStep)
    (env : List String → SpawnOutcome) (hasCallback : Bool)
    (log0 : List LogEntry) :
    (execute_operations operations env hasCallback log0).2
      = (true, String.intercalate "\n"
          (execute_operations operations env hasCallback log0).1.results) :=
  rfl

/-- C3 counterexample: the always-run host-fix list that `fix_system`
appends after the manager-specific steps has four entries, not five. -/
theorem fix_common_fixes_count_cex :
    (fix_ops "apt").drop (fix_manager_ops "apt").length = common_fixes
    ∧ common_fixes.length = 4 ∧ ¬ common_fixes.length = 5 := by
  refine ⟨?_, rfl, by decide⟩
  rfl

/-- C3 (amended): for every package manager, `fix_system` builds the
manager-specific integrity/repair commands followed by FOUR always-run host
fixes: journalctl log vacuum to 7 days, systemd daemon-reload, ldconfig
dynamic-linker cache refresh, and updatedb file-locate database refresh. -/
theorem fix_steps_appends_four_common_fixes (pm : String) :
    fix_ops pm = fix_manager_ops pm ++
      [ ⟨["sudo", "journalctl", "--vacuum-time=7d"], "Cleaning system logs..."⟩,
        ⟨["sudo", "systemctl", "daemon-reload"], "Reloading systemd..."⟩,
        ⟨["sudo", "ldconfig"], "Updating library cache..."⟩,
        ⟨["sudo", "updatedb"], "Updating locate database..."⟩ ] :=
  rfl

/-- C4: `run_command` converts every failure mode to a returned pair and
never lets an exception escape (the Lean model is a total function): timeout
gives `(false, "Command timed out")`, non-zero exit gives `false` with a
message containing the captured stderr, any other launch failure gives
`false` with a generic error message, and success returns `true` with the
combined stdout and stderr. -/
theorem run_command_failure_modes :
    (run_command .timedOut = (false, "Command timed out"))
    ∧ (∀ stdout stderr : String,
        run_command (.exited 0 stdout stderr) = (true, stdout ++ stderr))
    ∧ (∀ (n : Nat) (stdout stderr : String),
        run_command (.exited (n + 1) stdout stderr)
          = (false, "Command failed: " ++ stderr))
    ∧ (∀ msg : String,
        run_command (.launchError msg) = (false, "Error: " ++ msg)) :=
  ⟨rfl, fun _ _ => rfl, fun _ _ _ => rfl, fun _ => rfl⟩

/-- C5: for every list of operation steps and every environment,
`_execute_operations` appends exactly one `LogEntry` per step, in execution
order, after the pre-existing log; each step's entry records that step's
own command result, so every step runs regardless of earlier failures
(there is no short-circuit). -/
theorem execute_runs_all_steps (operations : List OperationStep)
    (env : List String → SpawnOutcome) (hasCallback : Bool)
    (log0 : List LogEntry) :
    (execute_operations operations env hasCallback log0).1.operations_log
      = log0 ++ operations.map (stepLogEntry env) :=
  execute_log_spec operations env hasCallback log0

/-- C8: with package manager pacman, `auto_remove_unused` builds exactly
the pacman orphan-removal and cache-clean pair followed by the five fixed
filesystem cleanup commands, in that order and nothing else. -/
theorem auto_remove_pacman_catalog :
    auto_remove_ops "pacman" =
      [ ⟨["sudo", "pacman", "-Rns", "--noconfirm", "$(pacman -Qtdq)"],
          "Removing orphaned packages..."⟩,
        ⟨["sudo", "pacman", "-Scc", "--noconfirm"], "Cleaning package cache..."⟩,
        ⟨["sudo", "journalctl", "--vacuum-time=3d"], "Cleaning old logs..."⟩,
        ⟨["sudo", "find", "/tmp", "-type", "f", "-atime", "+7", "-delete"],
          "Cleaning temp files..."⟩,
        ⟨["sudo", "find", "/var/tmp", "-type", "f", "-atime", "+7", "-delete"],
          "Cleaning var temp..."⟩,
        ⟨["sudo", "find", "/var/log", "-name", "*.log", "-type", "f",
            "-mtime", "+30", "-delete"], "Cleaning old logs..."⟩,
        ⟨["sudo", "find", "/home", "-name", ".cache", "-type", "d", "-exec",
            "rm", "-rf", "\x7b\x7d", "+"], "Cleaning user caches..."⟩ ] :=
  rfl

/-- C10: `update_system` with a package manager outside apt/apt-get/dnf/yum/
pacman (e.g. zypper) builds an empty operation list, and running
`_execute_operations` on an empty list invokes the progress callback zero
times, appends no log entries, and returns `(true, "")`; the
division-by-zero candidate `(i + 1) / total_ops` is never evaluated because
the loop body is never entered. -/
theorem update_zypper_empty_run :
    update_manager_ops "zypper" = []
    ∧ ∀ (env : List String → SpawnOutcome) (hasCallback : Bool)
        (log0 : List LogEntry),
        update_system "zypper" env hasCallback log0
          = (⟨log0, [], []⟩, (true, "")) := by
  exact ⟨rfl, fun env hasCallback log0 => rfl⟩

/-- C6: for every step executed by `_execute_operations`, the stored log
entry keeps the command output verbatim when it is at most 200 characters
long, and stores the first 200 characters followed by the ellipsis marker
"..." when it is longer. -/
theorem execute_log_output_truncation (operations : List OperationStep)
    (env : List String → SpawnOutcome) (hasCallback : Bool)
    (log0 : List LogEntry) (step : OperationStep) (hmem : step ∈ operations) :
    ∃ e ∈ (execute_operations operations env hasCallback log0).1.operations_log,
      e.command = String.intercalate " " step.command
      ∧ e.description = step.description
      ∧ ((run_command (env step.command)).2.length ≤ 200 →
          e.output = (run_command (env step.command)).2)
      ∧ (200 < (run_command (env step.command)).2.length →
          e.output = (run_command (env step.command)).2.take 200 ++ "...") := by
  refine ⟨stepLogEntry env step, ?_, rfl, rfl, ?_, ?_⟩
  · rw [execute_log_spec]
    exact List.mem_append_right _ (List.mem_map_of_mem _ hmem)
  · intro hle
    simp [stepLogEntry, mkLogEntry, Nat.not_lt_of_le hle]
  · intro hgt
    simp [stepLogEntry, mkLogEntry, hgt]

/-- C6 witness: a single-step run against an environment whose command
output is 300 characters long. -/
theorem execute_log_output_truncation_witness :
    ∃ e ∈ (execute_operations
        [(⟨["sudo", "sync"], "Syncing filesystems..."⟩ : OperationStep)]
        envLongOutput true []).1.operations_log,
      e.command = String.intercalate " " ["sudo", "sync"]
      ∧ e.description = "Syncing filesystems..."
      ∧ ((run_command (envLongOutput ["sudo", "sync"])).2.length ≤ 200 →
          e.output = (run_command (envLongOutput ["sudo", "sync"])).2)
      ∧ (200 < (run_command (envLongOutput ["sudo", "sync"])).2.length →
          e.output = (run_command (envLongOutput ["sudo", "sync"])).2.take 200
            ++ "...") :=
  execute_log_output_truncation _ envLongOutput true [] _
    (List.mem_singleton.mpr rfl)

/-- The first-available walk of `get_package_manager` agrees with the
spec-level first-match selection whenever no probe spawn-fails. -/
theorem findFirstExisting_spec (env : String → ProbeResult)
    (h : ∀ c, ∃ n, env c = .exited n) (pms : List String) :
    findFirstExisting env pms = .ok ((pms.find? (probeOk env)).getD "apt") := by
  induction pms with
  | nil => rfl
  | cons pm rest ih =>
    obtain ⟨n, hn⟩ := h pm
    cases n with
    | zero =>
      simp [findFirstExisting, command_exists, hn, probeOk, List.find?,
        Bind.bind, Except.bind, Pure.pure, Except.pure]
    | succ k =>
      simp [findFirstExisting, command_exists, hn, probeOk, List.find?, ih,
        Bind.bind, Except.bind, Pure.pure, Except.pure]

/-- C7: whenever every `which` probe runs to an exit code (no spawn
failure), `get_package_manager` returns the first manager in the detected
distro's priority list whose probe reports it available, and returns
`"apt"` when the distro is unknown or none of the listed managers is
installed — exactly the spec-level selection `selectSpec`. -/
theorem get_package_manager_first_available (env : String → ProbeResult)
    (distro : String) (h : ∀ c, ∃ n, env c = .exited n) :
    get_package_manager env distro = .ok (selectSpec (probeOk env) distro) := by
  unfold get_package_manager selectSpec
  cases supported_distros distro with
  | none => rfl
  | some pms => exact findFirstExisting_spec env h pms

/-- C7 witness: with every probe succeeding, the arch priority list selects
pacman. -/
theorem get_package_manager_first_available_witness :
    get_package_manager envAllOk "arch" = .ok "pacman" :=
  get_package_manager_first_available envAllOk "arch" (fun _ => ⟨0, rfl⟩)

/-- C9: `command_exists` returns `false` exactly when the `which` probe
exits non-zero; a spawn failure of the probe itself propagates as an
exception out of `command_exists` and hence out of `get_package_manager`,
so in such an environment the selection does not return at all (in
particular it does not default to `"apt"`). -/
theorem command_exists_probe_semantics :
    (∀ (env : String → ProbeResult) (c : String),
        command_exists env c = .ok false ↔ ∃ n, env c = .exited (n + 1))
    ∧ (∀ (env : String → ProbeResult) (c msg : String),
        env c = .spawnFailure msg → command_exists env c = .error msg)
    ∧ (∀ (env : String → ProbeResult) (msg : String),
        env "pacman" = .spawnFailure msg →
          get_package_manager env "arch" = .error msg
          ∧ ∀ s : String, get_package_manager env "arch" ≠ .ok s) := by
  refine ⟨?_, ?_, ?_⟩
  · intro env c
    cases h : env c with
    | exited n =>
      cases n with
      | zero => simp [command_exists, h]
      | succ k => simp [command_exists, h]
    | spawnFailure m => simp [command_exists, h]
  · intro env c msg h
    simp [command_exists, h]
  · intro env msg h
    have hrun : get_package_manager env "arch" = .error msg := by
      show findFirstExisting env ["pacman"] = .error msg
      simp [findFirstExisting, command_exists, h, Bind.bind, Except.bind]
    exact ⟨hrun, fun s hs => by rw [hrun] at hs; exact absurd hs (by simp)⟩

/-- C9 witness: in an environment where the probe binary itself is missing,
`command_exists` and the package-manager selection both surface the
exception instead of defaulting to apt. -/
theorem command_exists_probe_semantics_witness :
    command_exists envWhichMissing "pacman"
        = .error "No such file or directory: which"
    ∧ get_package_manager envWhichMissing "arch"
        = .error "No such file or directory: which" :=
  ⟨command_exists_probe_semantics.2.1 envWhichMissing "pacman" _ rfl,
    (command_exists_probe_semantics.2.2 envWhichMissing _ rfl).1⟩

/-- C2: for every non-empty operation list and a supplied progress
callback, `_execute_operations` invokes the callback exactly once per step,
in order, with percentage `(index + 1) / total * 100` and that step's
description (the invocation precedes the step's `run_command` call in the
loop body); the percentages are strictly increasing and the last one is
exactly 100. -/
theorem execute_progress_reporting (operations : List OperationStep)
    (env : List String → SpawnOutcome) (log0 : List LogEntry)
    (hne : operations ≠ []) :
    (execute_operations operations env true log0).1.calls
      = operations.enum.map
          (fun p => (((p.1 : ℚ) + 1) / (operations.length : ℚ) * 100,
            p.2.description))
    ∧ (execute_operations operations env true log0).1.calls.length
        = operations.length
    ∧ List.Pairwise (· < ·)
        ((execute_operations operations env true log0).1.calls.map Prod.fst)
    ∧ ((execute_operations operations env true log0).1.calls.map
        Prod.fst).getLast? = some 100 := by
  have hcalls := execute_calls_spec operations env log0
  have hfst : (execute_operations operations env true log0).1.calls.map Prod.fst
      = (List.range operations.length).map
          (fun i : ℕ => ((i : ℚ) + 1) / (operations.length : ℚ) * 100) := by
    rw [hcalls, List.map_map]
    have hcomp : (Prod.fst ∘ fun p : Nat × OperationStep =>
          stepCall operations.length p.1 p.2)
        = (fun i : ℕ => ((i : ℚ) + 1) / (operations.length : ℚ) * 100) ∘
            Prod.fst := rfl
    rw [hcomp, ← List.map_map, List.enum_map_fst]
  have hN : 0 < operations.length := List.length_pos.mpr hne
  have hNQ : (0 : ℚ) < (operations.length : ℚ) := by exact_mod_cast hN
  refine ⟨by rw [hcalls]; rfl, ?_, ?_, ?_⟩
  · rw [hcalls]
    simp
  · rw [hfst]
    refine (List.pairwise_map).mpr ?_
    refine (List.pairwise_lt_range _).imp ?_
    intro a b hab
    have h1 : ((a : ℚ) + 1) < ((b : ℚ) + 1) := by
      exact_mod_cast Nat.succ_lt_succ hab
    have h2 : ((a : ℚ) + 1) / (operations.length : ℚ)
        < ((b : ℚ) + 1) / (operations.length : ℚ) :=
      div_lt_div_of_pos_right h1 hNQ
    exact mul_lt_mul_of_pos_right h2 (by norm_num)
  · rw [hfst]
    obtain ⟨m, hm⟩ :=
      Nat.exists_eq_succ_of_ne_zero (Nat.pos_iff_ne_zero.mp hN)
    have hr : List.range (m + 1) = List.range m ++ [m] := List.range_succ m
    rw [hm, hr, List.map_append]
    simp only [List.map_cons, List.map_nil, List.getLast?_concat,
      Option.some.injEq]
    have hq : ((m : ℚ) + 1) ≠ 0 := by positivity
    push_cast
    rw [div_self hq, one_mul]

/-- C2 witness: a concrete two-step run with a callback. -/
theorem execute_progress_reporting_witness :
    (execute_operations
        [(⟨["sudo", "sysctl", "-p"], "Applying kernel parameters..."⟩ :
            OperationStep),
          ⟨["sudo", "sync"], "Syncing filesystems..."⟩]
        envShortOutput true []).1.calls.length = 2
    ∧ ((execute_operations
        [(⟨["sudo", "sysctl", "-p"], "Applying kernel parameters..."⟩ :
            OperationStep),
          ⟨["sudo", "sync"], "Syncing filesystems..."⟩]
        envShortOutput true []).1.calls.map Prod.fst).getLast? = some 100 :=
  ⟨(execute_progress_reporting _ envShortOutput [] (by simp)).2.1,
    (execute_progress_reporting _ envShortOutput [] (by simp)).2.2.2⟩
